import Mathlib

/-!
# drop-con: a fault-injection HTTP endpoint

A shallow embedding of `main.go`.  Every handler is a function from the
response writer and the request to a `Run`: the finite list of effects it
performs, in order, on the logger, on the response writer, on the hijacked
stream and on the clock, followed by the way the call ends (it returns, it
blocks for ever, it panics).
-/

namespace DropCon

/-! ## Data model -/

/-- Go `time.Duration`: a count of nanoseconds. -/
abbrev Duration := Int

/-- Go `time.Second`. -/
def Second : Duration := 1000000000

/-- Go `http.StatusOK`. -/
def StatusOK : Nat := 200

/-- Go `http.StatusInternalServerError`. -/
def StatusInternalServerError : Nat := 500

/-- Go `http.Header`: a map from header names to their values, kept as an
association list read by first match. -/
abbrev Header := List (String × List String)

/-- The part of `*http.Request` that `main.go` reads.  `URL` is the text
`r.URL.String()` returns and `Path` is `r.URL.Path`, which the mux routes on. -/
structure Request where
  RemoteAddr : String
  Method : String
  URL : String
  Path : String
  Proto : String
  Header : Header
  deriving DecidableEq, Repr

/-- What a call of `hj.Hijack()` gives back: the raw connection with its
buffered stream, or an error with its text. -/
inductive HijackResult where
  | conn
  | err (text : String)
  deriving DecidableEq, Repr

/-- The part of `http.ResponseWriter` the handlers depend on: `Hijacker` is
`none` when the type assertion `w.(http.Hijacker)` fails, and otherwise holds
what `Hijack()` returns. -/
structure ResponseWriter where
  Hijacker : Option HijackResult
  deriving DecidableEq, Repr

/-- Levels of `log/slog` used by the program. -/
inductive Level where
  | Info
  | Error
  deriving DecidableEq, Repr

/-- One call on the `*slog.Logger`: level, message and the key/value pairs in
the order they are passed. -/
structure Record where
  level : Level
  msg : String
  attrs : List (String × String)
  deriving DecidableEq, Repr

/-- The effects a handler performs. -/
inductive Event where
  /-- A call of `log.Info` or `log.Error`. -/
  | log (rec : Record)
  /-- A call of `w.Header().Del(key)`. -/
  | headerDel (key : String)
  /-- A call of `w.Header().Set(key, value)`. -/
  | headerSet (key value : String)
  /-- A call of `w.WriteHeader(code)`. -/
  | writeHeader (code : Nat)
  /-- A call of `w.Write(data)`. -/
  | write (data : String)
  /-- A call of `hj.Hijack()` together with what it returned. -/
  | hijack (res : HijackResult)
  /-- A call of `bufrw.WriteString(s)`. -/
  | bufWriteString (s : String)
  /-- A call of `bufrw.Flush()`. -/
  | bufFlush
  /-- The receive `<-time.After(d)`. -/
  | wait (d : Duration)
  /-- A call of `conn.Close()`. -/
  | connClose
  deriving DecidableEq, Repr

/-- How a call ends. -/
inductive Outcome (α : Type) where
  | ret (a : α)
  | blocked
  | panicked (v : String)
  deriving DecidableEq, Repr

/-- The behaviour of a call: its effects in order, then its outcome. -/
structure Run (α : Type) where
  events : List Event
  outcome : Outcome α
  deriving DecidableEq, Repr

/-- Sequential composition: the effects of `x`, then those of `f` on the
value `x` returned; nothing runs after a call that does not return. -/
def Run.bind {α β : Type} (x : Run α) (f : α → Run β) : Run β :=
  match x.outcome with
  | Outcome.ret a => ⟨x.events ++ (f a).events, (f a).outcome⟩
  | Outcome.blocked => ⟨x.events, Outcome.blocked⟩
  | Outcome.panicked v => ⟨x.events, Outcome.panicked v⟩

instance : Monad Run where
  pure a := ⟨[], Outcome.ret a⟩
  bind := Run.bind

/-- Perform one effect and go on. -/
def emit (e : Event) : Run Unit := ⟨[e], Outcome.ret ()⟩

/-- Go `select {}`: blocks for ever. -/
def selectForever {α : Type} : Run α := ⟨[], Outcome.blocked⟩

/-- An `http.Handler`, as its `ServeHTTP` method. -/
abbrev Handler := ResponseWriter → Request → Run Unit

/-! ## Library functions the program calls -/

/-- Go `textproto.validHeaderFieldByte`: the token characters of RFC 7230. -/
def validHeaderFieldByte (c : Char) : Bool :=
  c.isAlphanum || c ∈ [ '!', '#', '$', '%', '&', Char.ofNat 39, '*', '+', '-', '.',
    '^', '_', Char.ofNat 96, '|', '~' ]

/-- The rewriting loop of Go `textproto.canonicalMIMEHeaderKey`: upper case
for the first letter and for each letter after a dash, lower case elsewhere. -/
def canonicalLoop : Bool → List Char → List Char
  | _, [] => []
  | upper, c :: cs =>
    let c1 := if upper && c.isLower then c.toUpper
              else if !upper && c.isUpper then c.toLower else c
    c1 :: canonicalLoop (c1 == '-') cs

/-- Go `textproto.CanonicalMIMEHeaderKey`: a key holding a byte that is not a
token character is returned as it is, any other key is canonicalised. -/
def CanonicalMIMEHeaderKey (s : String) : String :=
  if s.data.all validHeaderFieldByte then String.mk (canonicalLoop true s.data) else s

/-- Go `Header.Get`: the first value stored under the canonical form of
`key`, or the empty string when there is none. -/
def Header.Get (h : Header) (key : String) : String :=
  match h.lookup (CanonicalMIMEHeaderKey key) with
  | none => ""
  | some [] => ""
  | some (v :: _) => v

/-- Go `fmt.Fprintln(w, s)` on the response writer: one `Write` of the text
and a newline. -/
def Fprintln (s : String) : Run Unit := emit (Event.write (s ++ "\n"))

/-- Go `http.Error(w, error, code)`. -/
def httpError (error : String) (code : Nat) : Run Unit := do
  emit (Event.headerDel "Content-Length")
  emit (Event.headerSet "Content-Type" "text/plain; charset=utf-8")
  emit (Event.headerSet "X-Content-Type-Options" "nosniff")
  emit (Event.writeHeader code)
  Fprintln error

/-- Go `log.Info(msg, args...)`. -/
def logInfo (msg : String) (attrs : List (String × String)) : Run Unit :=
  emit (Event.log ⟨Level.Info, msg, attrs⟩)

/-- Go `log.Error(msg, args...)`. -/
def logError (msg : String) (attrs : List (String × String)) : Run Unit :=
  emit (Event.log ⟨Level.Error, msg, attrs⟩)

/-- Go `hj.Hijack()`: the call is an effect and hands back its result. -/
def Hijack (hj : HijackResult) : Run HijackResult := ⟨[Event.hijack hj], Outcome.ret hj⟩

/-! ## The program -/

/-- Source `handleHi`. -/
def handleHi : Handler := fun _w _r =>
  Fprintln "Hi!"

/-- Source `handleHang`. -/
def handleHang : Handler := fun _w r => do
  let b3TraceID := r.Header.Get "X-B3-TraceId"
  let b3SpanID := r.Header.Get "X-B3-SpanId"
  let tp := r.Header.Get "traceparent"
  let ts := r.Header.Get "tracestate"
  logInfo "waiting indefinitely" [("from", r.RemoteAddr), ("method", r.Method), ("url", r.URL),
    ("traceparent", tp), ("tracestate", ts), ("X-B3-TraceId", b3TraceID), ("X-B3-SpanId", b3SpanID)]
  selectForever

/-- Source `handleDropped`. -/
def handleDropped (after : Duration) (withResponse : Bool) : Handler := fun w r =>
  match w.Hijacker with
  | none => do
    logError "server doesn't support hijacking" []
    httpError "server doesn't support hijacking" StatusInternalServerError
  | some hj => do
    let res ← Hijack hj
    match res with
    | HijackResult.err text => do
      logError "unable to hijack server" [("err", text)]
      httpError text StatusInternalServerError
    | HijackResult.conn => do
      if withResponse then
        emit (Event.bufWriteString (r.Proto ++ " 200 OK\n"))
        emit (Event.bufWriteString "Content-Length: 3\n\n")
        emit (Event.bufWriteString "Hi")
        emit Event.bufFlush
      emit (Event.wait after)
      let b3TraceID := r.Header.Get "X-B3-TraceId"
      let b3SpanID := r.Header.Get "X-B3-SpanId"
      let tp := r.Header.Get "traceparent"
      let ts := r.Header.Get "tracestate"
      logInfo "dropping connection" [("from", r.RemoteAddr), ("method", r.Method), ("url", r.URL),
        ("traceparent", tp), ("tracestate", ts), ("X-B3-TraceId", b3TraceID), ("X-B3-SpanId", b3SpanID)]
      emit Event.connClose

/-- Source `withLogging`: one record when the middleware is built, and the
wrapping handler. -/
def withLogging (h : Handler) : Run Handler := do
  logInfo "using middleware" [("function", "withLogging")]
  pure (fun w r => do
    let b3TraceID := r.Header.Get "X-B3-TraceId"
    let b3SpanID := r.Header.Get "X-B3-SpanId"
    let tp := r.Header.Get "traceparent"
    let ts := r.Header.Get "tracestate"
    logInfo "request" [("from", r.RemoteAddr), ("method", r.Method), ("url", r.URL),
      ("traceparent", tp), ("tracestate", ts), ("X-B3-TraceId", b3TraceID), ("X-B3-SpanId", b3SpanID)]
    h w r)

/-- The patterns registered on the mux in source `run`, with their handlers. -/
def routes : List (String × Handler) :=
  [("/hi", handleHi),
   ("/drop", handleDropped (2 * Second) false),
   ("/dropNoisy", handleDropped (2 * Second) true),
   ("/hang", handleHang)]

/-- The mux of source `run`.  None of the four patterns ends in a slash or
names a host or a method, so a request whose path is one of them goes to the
handler registered for it.  What `http.ServeMux` does with any other request
(a redirect to the clean form of the path, a 404 reply) is library behaviour
and is taken as the parameter `other`. -/
def mux (other : Handler) : Handler := fun w r =>
  match routes.lookup r.Path with
  | some h => h w r
  | none => other w r

/-! ## Observations on a run -/

/-- The value a record carries under a key. -/
def Record.attr (rec : Record) (k : String) : Option String := rec.attrs.lookup k

/-- The log records of a list of effects, in order. -/
def records : List Event → List Record
  | [] => []
  | Event.log rec :: es => rec :: records es
  | _ :: es => records es

/-- Effects that go through the normal response writer `w`. -/
def Event.onResponseWriter : Event → Bool
  | Event.headerDel _ => true
  | Event.headerSet _ _ => true
  | Event.writeHeader _ => true
  | Event.write _ => true
  | _ => false

/-- Effects that put bytes on the hijacked stream. -/
def Event.onStream : Event → Bool
  | Event.bufWriteString _ => true
  | Event.bufFlush => true
  | _ => false

/-- Effects that act on the raw connection handle: writes to its stream and
its close. -/
def Event.onConn : Event → Bool
  | Event.bufWriteString _ => true
  | Event.bufFlush => true
  | Event.connClose => true
  | _ => false

/-- The receive on the timer channel. -/
def Event.isWait : Event → Bool
  | Event.wait _ => true
  | _ => false

/-- A call of `conn.Close()`. -/
def Event.isClose : Event → Bool
  | Event.connClose => true
  | _ => false

/-- A call of `Hijack`, whatever it returned. -/
def Event.isHijack : Event → Bool
  | Event.hijack _ => true
  | _ => false

/-- The effects that follow the first successful `Hijack`. -/
def afterHijack : List Event → List Event
  | [] => []
  | Event.hijack HijackResult.conn :: es => es
  | _ :: es => afterHijack es

/-- The hijacked stream: what sits in the buffer of `bufrw` and what has
been handed to the connection. -/
structure Stream where
  buffered : String
  sent : String
  closes : Nat
  deriving DecidableEq, Repr

/-- One effect on the hijacked stream: `WriteString` fills the buffer,
`Flush` hands the buffer to the connection, `Close` is counted. -/
def Stream.step (s : Stream) : Event → Stream
  | Event.bufWriteString d => { s with buffered := s.buffered ++ d }
  | Event.bufFlush => { s with buffered := "", sent := s.sent ++ s.buffered }
  | Event.connClose => { s with closes := s.closes + 1 }
  | _ => s

/-- The hijacked stream after a list of effects. -/
def stream (es : List Event) : Stream := es.foldl Stream.step ⟨"", "", 0⟩

/-- A reply on the normal response path: its status, the header fields the
handler set, and its body. -/
structure Response where
  status : Option Nat
  header : List (String × String)
  body : String
  deriving DecidableEq, Repr

/-- One effect on the normal response writer, by the contract of
`http.ResponseWriter`: the status is fixed by the first `WriteHeader`, or is
200 when `Write` comes first; the header map cannot change once the status is
fixed; `Write` hands over the bytes of the body. -/
def Response.step (s : Response) : Event → Response
  | Event.headerDel k =>
    if s.status.isSome then s else { s with header := s.header.filter (fun p => p.1 != k) }
  | Event.headerSet k v =>
    if s.status.isSome then s
    else { s with header := s.header.filter (fun p => p.1 != k) ++ [(k, v)] }
  | Event.writeHeader c => if s.status.isSome then s else { s with status := some c }
  | Event.write d => { s with status := some (s.status.getD StatusOK), body := s.body ++ d }
  | _ => s

/-- What a handler hands to the response writer: the status, the header
fields and all the bytes it passes to `Write`, whatever the transport then
does with them. -/
def written (es : List Event) : Response := es.foldl Response.step ⟨none, [], ""⟩

/-- What the `net/http` server sends to the client for what the handler
wrote: the same status and header fields, and the same body except to a
request of method `HEAD`, whose reply carries no body (the server takes the
bytes passed to `Write` and drops them).  The statuses the program replies
with (200, 500) all allow a body. -/
def response (r : Request) (es : List Event) : Response :=
  if r.Method = "HEAD" then { written es with body := "" } else written es

/-- What an observer of a call sees: its effects, then its return or its
panic, and nothing more when it blocks. -/
inductive Obs where
  | effect (e : Event)
  | returned
  | panicked
  deriving DecidableEq, Repr

/-- The observations of a run, in order. -/
def Run.trace (x : Run Unit) : List Obs :=
  x.events.map Obs.effect ++
    match x.outcome with
    | Outcome.ret _ => [Obs.returned]
    | Outcome.blocked => []
    | Outcome.panicked _ => [Obs.panicked]

/-- Observations that write a header, a status or a byte of a reply, on
either path. -/
def Obs.writesReply : Obs → Bool
  | Obs.effect e => e.onResponseWriter || e.onStream
  | _ => false

/-- The text after a status line, cut at its first empty line: the header
lines before it and the body after it.  Lines end in a bare line feed, as the
drop handler writes them. -/
def splitAtBlankLine : List Char → Option (List Char × List Char)
  | [] => none
  | c :: rest =>
    if c = '\n' ∧ rest.head? = some '\n' then some ([], rest.tail)
    else (splitAtBlankLine rest).map (fun p => (c :: p.1, p.2))

/-- A decimal number, read from its digits. -/
def parseNat (cs : List Char) : Option Nat :=
  if cs = [] ∨ cs.all Char.isDigit = false then none
  else some (cs.foldl (fun n c => 10 * n + (c.toNat - 48)) 0)

/-- Cut a text into its lines. -/
def splitLines : List Char → List (List Char)
  | [] => [[]]
  | c :: rest =>
    if c = '\n' then [] :: splitLines rest
    else match splitLines rest with
      | [] => [[c]]
      | l :: ls => (c :: l) :: ls

/-- The length a header block declares in its `Content-Length` line. -/
def contentLength (head : List Char) : Option Nat :=
  match (splitLines head).find? (fun l => l.take 16 == "Content-Length: ".data) with
  | none => none
  | some l => parseNat (l.drop 16)

/-- The length declared by the header lines of a text that follows a status
line. -/
def declaredLength (s : String) : Option Nat :=
  (splitAtBlankLine s.data).bind (fun p => contentLength p.1)

/-- The body of a text that follows a status line. -/
def bodyOf (s : String) : Option String :=
  (splitAtBlankLine s.data).map (fun p => String.mk p.2)

/-- The key/value pairs the "request", "waiting indefinitely" and "dropping
connection" records are expected to carry for a request. -/
def requestAttrs (r : Request) : List (String × String) :=
  [("from", r.RemoteAddr), ("method", r.Method), ("url", r.URL),
   ("traceparent", r.Header.Get "traceparent"), ("tracestate", r.Header.Get "tracestate"),
   ("X-B3-TraceId", r.Header.Get "X-B3-TraceId"), ("X-B3-SpanId", r.Header.Get "X-B3-SpanId")]

/-- A request for `/dropNoisy` that carries a `traceparent` header and an
`X-B3-TraceId` header, stored by the server under their canonical names, and
no `tracestate` nor `X-B3-SpanId` header. -/
def tracedRequest : Request :=
  ⟨"10.0.0.1:5000", "GET", "/dropNoisy", "/dropNoisy", "HTTP/1.1",
   [("Traceparent", ["abc123"]), ("X-B3-Traceid", ["463ac35c9f6413ad", "ffff"])]⟩

/-! ## Theorems -/

/-- The effects of the drop handler once the hijack has succeeded. -/
theorem handleDropped_conn (after : Duration) (withResponse : Bool) (w : ResponseWriter)
    (r : Request) (hc : w.Hijacker = some HijackResult.conn) :
    handleDropped after withResponse w r =
      ⟨Event.hijack HijackResult.conn ::
        ((if withResponse then
            [Event.bufWriteString (r.Proto ++ " 200 OK\n"),
             Event.bufWriteString "Content-Length: 3\n\n",
             Event.bufWriteString "Hi", Event.bufFlush]
          else []) ++
         [Event.wait after,
          Event.log ⟨Level.Info, "dropping connection", requestAttrs r⟩,
          Event.connClose]), Outcome.ret ()⟩ := by
  unfold handleDropped
  rw [hc]
  cases withResponse <;> rfl

/-- `Header.Get` in terms of the stored values. -/
theorem Header.Get_eq (h : Header) (key : String) :
    h.Get key = ((h.lookup (CanonicalMIMEHeaderKey key)).bind List.head?).getD "" := by
  unfold Header.Get
  cases h.lookup (CanonicalMIMEHeaderKey key) with
  | none => rfl
  | some vs => cases vs <;> rfl

/-- `Header.Get` at the four tracing names: the first value the header map
stores under `Traceparent`, `Tracestate`, `X-B3-Traceid`, `X-B3-Spanid`. -/
theorem Header.Get_tracing (h : Header) :
    h.Get "traceparent" = ((h.lookup "Traceparent").bind List.head?).getD "" ∧
    h.Get "tracestate" = ((h.lookup "Tracestate").bind List.head?).getD "" ∧
    h.Get "X-B3-TraceId" = ((h.lookup "X-B3-Traceid").bind List.head?).getD "" ∧
    h.Get "X-B3-SpanId" = ((h.lookup "X-B3-Spanid").bind List.head?).getD "" := by
  have h1 : CanonicalMIMEHeaderKey "traceparent" = "Traceparent" := by decide
  have h2 : CanonicalMIMEHeaderKey "tracestate" = "Tracestate" := by decide
  have h3 : CanonicalMIMEHeaderKey "X-B3-TraceId" = "X-B3-Traceid" := by decide
  have h4 : CanonicalMIMEHeaderKey "X-B3-SpanId" = "X-B3-Spanid" := by decide
  refine ⟨?_, ?_, ?_, ?_⟩
  · rw [Header.Get_eq, h1]
  · rw [Header.Get_eq, h2]
  · rw [Header.Get_eq, h3]
  · rw [Header.Get_eq, h4]

/-- C1: the names `traceparent`, `tracestate`, `X-B3-TraceId`, `X-B3-SpanId`
are looked up under their canonical forms `Traceparent`, `Tracestate`,
`X-B3-Traceid`, `X-B3-Spanid`; in the interceptor's "request" record, in the
hang handler's "waiting indefinitely" record and in the drop handler's
"dropping connection" record each of the four attributes is the first value
the header map of the request stores under that form, as it is, or the empty
string when the map stores none; the three records carry the same pairs. -/
theorem tracing_attributes_verbatim (h : Handler) (w wd : ResponseWriter) (r : Request)
    (after : Duration) (withResponse : Bool) (hc : wd.Hijacker = some HijackResult.conn) :
    CanonicalMIMEHeaderKey "traceparent" = "Traceparent" ∧
    CanonicalMIMEHeaderKey "tracestate" = "Tracestate" ∧
    CanonicalMIMEHeaderKey "X-B3-TraceId" = "X-B3-Traceid" ∧
    CanonicalMIMEHeaderKey "X-B3-SpanId" = "X-B3-Spanid" ∧
    ∃ g rq rh rd,
      (withLogging h).outcome = Outcome.ret g ∧
      (records (g w r).events).head? = some rq ∧ rq.msg = "request" ∧
      records (handleHang w r).events = [rh] ∧ rh.msg = "waiting indefinitely" ∧
      records (handleDropped after withResponse wd r).events = [rd] ∧
      rd.msg = "dropping connection" ∧
      rq.attr "traceparent" = some (((r.Header.lookup "Traceparent").bind List.head?).getD "") ∧
      rq.attr "tracestate" = some (((r.Header.lookup "Tracestate").bind List.head?).getD "") ∧
      rq.attr "X-B3-TraceId" = some (((r.Header.lookup "X-B3-Traceid").bind List.head?).getD "") ∧
      rq.attr "X-B3-SpanId" = some (((r.Header.lookup "X-B3-Spanid").bind List.head?).getD "") ∧
      rh.attr "traceparent" = some (((r.Header.lookup "Traceparent").bind List.head?).getD "") ∧
      rh.attr "tracestate" = some (((r.Header.lookup "Tracestate").bind List.head?).getD "") ∧
      rh.attr "X-B3-TraceId" = some (((r.Header.lookup "X-B3-Traceid").bind List.head?).getD "") ∧
      rh.attr "X-B3-SpanId" = some (((r.Header.lookup "X-B3-Spanid").bind List.head?).getD "") ∧
      rd.attr "traceparent" = some (((r.Header.lookup "Traceparent").bind List.head?).getD "") ∧
      rd.attr "tracestate" = some (((r.Header.lookup "Tracestate").bind List.head?).getD "") ∧
      rd.attr "X-B3-TraceId" = some (((r.Header.lookup "X-B3-Traceid").bind List.head?).getD "") ∧
      rd.attr "X-B3-SpanId" = some (((r.Header.lookup "X-B3-Spanid").bind List.head?).getD "") ∧
      rq.attrs = rh.attrs ∧ rh.attrs = rd.attrs := by
  rw [handleDropped_conn after withResponse wd r hc]
  obtain ⟨e1, e2, e3, e4⟩ := Header.Get_tracing r.Header
  have a1 : (requestAttrs r).lookup "traceparent" = some (r.Header.Get "traceparent") := rfl
  have a2 : (requestAttrs r).lookup "tracestate" = some (r.Header.Get "tracestate") := rfl
  have a3 : (requestAttrs r).lookup "X-B3-TraceId" = some (r.Header.Get "X-B3-TraceId") := rfl
  have a4 : (requestAttrs r).lookup "X-B3-SpanId" = some (r.Header.Get "X-B3-SpanId") := rfl
  rw [e1] at a1
  rw [e2] at a2
  rw [e3] at a3
  rw [e4] at a4
  refine ⟨by decide, by decide, by decide, by decide,
    _, ⟨Level.Info, "request", requestAttrs r⟩,
    ⟨Level.Info, "waiting indefinitely", requestAttrs r⟩,
    ⟨Level.Info, "dropping connection", requestAttrs r⟩, rfl, rfl, rfl, rfl, rfl, ?_, rfl,
    a1, a2, a3, a4, a1, a2, a3, a4, a1, a2, a3, a4, rfl, rfl⟩
  cases withResponse <;> rfl

/-- C1, at a request with `Traceparent: abc123` and two `X-B3-Traceid`
values: the three records carry `abc123`, the first trace id, and the empty
string for the two headers that are absent. -/
theorem tracing_attributes_verbatim_witness :
    (⟨some HijackResult.conn⟩ : ResponseWriter).Hijacker = some HijackResult.conn ∧
    ∃ g rq rh rd,
      (withLogging handleHi).outcome = Outcome.ret g ∧
      (records (g ⟨none⟩ tracedRequest).events).head? = some rq ∧ rq.msg = "request" ∧
      records (handleHang ⟨none⟩ tracedRequest).events = [rh] ∧
      rh.msg = "waiting indefinitely" ∧
      records (handleDropped 5 true ⟨some HijackResult.conn⟩ tracedRequest).events = [rd] ∧
      rd.msg = "dropping connection" ∧
      rq.attr "traceparent" = some "abc123" ∧
      rq.attr "tracestate" = some "" ∧
      rq.attr "X-B3-TraceId" = some "463ac35c9f6413ad" ∧
      rq.attr "X-B3-SpanId" = some "" ∧
      rh.attr "traceparent" = some "abc123" ∧
      rh.attr "tracestate" = some "" ∧
      rh.attr "X-B3-TraceId" = some "463ac35c9f6413ad" ∧
      rh.attr "X-B3-SpanId" = some "" ∧
      rd.attr "traceparent" = some "abc123" ∧
      rd.attr "tracestate" = some "" ∧
      rd.attr "X-B3-TraceId" = some "463ac35c9f6413ad" ∧
      rd.attr "X-B3-SpanId" = some "" ∧
      rq.attrs = rh.attrs ∧ rh.attrs = rd.attrs :=
  ⟨rfl, (tracing_attributes_verbatim handleHi ⟨none⟩ ⟨some HijackResult.conn⟩ tracedRequest
    5 true rfl).2.2.2.2⟩

/-- C2: the handler built by `withLogging` emits one informational "request"
record with the remote address, the method and the URL, and then runs the
wrapped handler on the same response writer and the same request: its effects
are that record followed by the effects of the wrapped handler, and it ends
the way the wrapped handler ends (return, block or panic). -/
theorem withLogging_logs_then_delegates (h : Handler) :
    ∃ g, (withLogging h).outcome = Outcome.ret g ∧
      ∀ (w : ResponseWriter) (r : Request),
        (g w r).events
          = Event.log ⟨Level.Info, "request", requestAttrs r⟩ :: (h w r).events ∧
        (g w r).outcome = (h w r).outcome ∧
        (g w r).trace
          = Obs.effect (Event.log ⟨Level.Info, "request", requestAttrs r⟩) :: (h w r).trace ∧
        (requestAttrs r).lookup "from" = some r.RemoteAddr ∧
        (requestAttrs r).lookup "method" = some r.Method ∧
        (requestAttrs r).lookup "url" = some r.URL :=
  ⟨_, rfl, fun _ _ => ⟨rfl, rfl, rfl, rfl, rfl, rfl⟩⟩

/-- C3: when the hijack succeeds the quiet drop handler hijacks, waits for
`after`, logs and closes the connection, in this order; it writes nothing to
the hijacked stream nor through the response writer, so no reply reaches the
client; the `/drop` route runs it with a delay of two seconds. -/
theorem quiet_drop_writes_nothing (after : Duration) (w : ResponseWriter) (r : Request)
    (other : Handler) (hc : w.Hijacker = some HijackResult.conn) :
    (handleDropped after false w r).events
      = [Event.hijack HijackResult.conn, Event.wait after,
         Event.log ⟨Level.Info, "dropping connection", requestAttrs r⟩, Event.connClose] ∧
    (handleDropped after false w r).outcome = Outcome.ret () ∧
    (handleDropped after false w r).trace.any Obs.writesReply = false ∧
    stream (handleDropped after false w r).events = ⟨"", "", 1⟩ ∧
    written (handleDropped after false w r).events = ⟨none, [], ""⟩ ∧
    response r (handleDropped after false w r).events = ⟨none, [], ""⟩ ∧
    mux other w { r with Path := "/drop" }
      = handleDropped (2 * Second) false w { r with Path := "/drop" } ∧
    2 * Second = (2000000000 : Int) := by
  rw [handleDropped_conn after false w r hc]
  refine ⟨rfl, rfl, rfl, rfl, rfl, ?_, rfl, by decide⟩
  unfold response
  split <;> rfl

/-- C3, at a request for `/drop`. -/
theorem quiet_drop_writes_nothing_witness :
    (⟨some HijackResult.conn⟩ : ResponseWriter).Hijacker = some HijackResult.conn ∧
    (handleDropped 7 false ⟨some HijackResult.conn⟩
        ⟨"10.0.0.1:5000", "GET", "/drop", "/drop", "HTTP/1.1", []⟩).events
      = [Event.hijack HijackResult.conn, Event.wait 7,
         Event.log ⟨Level.Info, "dropping connection",
           [("from", "10.0.0.1:5000"), ("method", "GET"), ("url", "/drop"), ("traceparent", ""),
            ("tracestate", ""), ("X-B3-TraceId", ""), ("X-B3-SpanId", "")]⟩,
         Event.connClose] :=
  ⟨rfl, (quiet_drop_writes_nothing 7 ⟨some HijackResult.conn⟩
    ⟨"10.0.0.1:5000", "GET", "/drop", "/drop", "HTTP/1.1", []⟩ handleHi rfl).1⟩

/-- What the drop handler with a response hands to the connection. -/
theorem noisy_stream (after : Duration) (w : ResponseWriter) (r : Request)
    (hc : w.Hijacker = some HijackResult.conn) :
    stream (handleDropped after true w r).events
      = ⟨"", r.Proto ++ " 200 OK\n" ++ "Content-Length: 3\n\nHi", 1⟩ := by
  rw [handleDropped_conn after true w r hc]
  simp [stream, Stream.step, String.append_assoc]

/-- C4: when the hijack succeeds the drop handler with a response writes the
status line, then a header block declaring `Content-Length: 3`, then the two
bytes `Hi`, and flushes; the declared length exceeds the length of the body;
nothing more is written before the connection is closed. -/
theorem noisy_drop_truncated_body (after : Duration) (w : ResponseWriter) (r : Request)
    (hc : w.Hijacker = some HijackResult.conn) :
    (handleDropped after true w r).events
      = [Event.hijack HijackResult.conn,
         Event.bufWriteString (r.Proto ++ " 200 OK\n"),
         Event.bufWriteString "Content-Length: 3\n\n",
         Event.bufWriteString "Hi", Event.bufFlush, Event.wait after,
         Event.log ⟨Level.Info, "dropping connection", requestAttrs r⟩, Event.connClose] ∧
    (stream (handleDropped after true w r).events).sent
      = r.Proto ++ " 200 OK\n" ++ "Content-Length: 3\n\nHi" ∧
    (stream (handleDropped after true w r).events).buffered = "" ∧
    declaredLength "Content-Length: 3\n\nHi" = some 3 ∧
    bodyOf "Content-Length: 3\n\nHi" = some "Hi" ∧
    "Hi".utf8ByteSize = 2 ∧
    "Hi".utf8ByteSize < 3 := by
  rw [noisy_stream after w r hc, handleDropped_conn after true w r hc]
  refine ⟨rfl, rfl, rfl, by decide, by decide, by decide, by decide⟩

/-- C4, at a request for `/dropNoisy`. -/
theorem noisy_drop_truncated_body_witness :
    (⟨some HijackResult.conn⟩ : ResponseWriter).Hijacker = some HijackResult.conn ∧
    (stream (handleDropped 7 true ⟨some HijackResult.conn⟩
        ⟨"10.0.0.1:5000", "GET", "/dropNoisy", "/dropNoisy", "HTTP/1.1", []⟩).events).sent
      = "HTTP/1.1 200 OK\nContent-Length: 3\n\nHi" :=
  ⟨rfl, (noisy_drop_truncated_body 7 ⟨some HijackResult.conn⟩
    ⟨"10.0.0.1:5000", "GET", "/dropNoisy", "/dropNoisy", "HTTP/1.1", []⟩ rfl).2.1⟩

/-- C5 as stated fails: for an HTTP/1.0 request the bytes on the hijacked
stream begin with `HTTP/1.0 200 OK`, not with `HTTP/1.1 200 OK`. -/
theorem noisy_status_line_counterexample :
    (⟨some HijackResult.conn⟩ : ResponseWriter).Hijacker = some HijackResult.conn ∧
    (stream (handleDropped (2 * Second) true ⟨some HijackResult.conn⟩
        ⟨"10.0.0.1:5000", "GET", "/dropNoisy", "/dropNoisy", "HTTP/1.0", []⟩).events).sent
      = "HTTP/1.0 200 OK\nContent-Length: 3\n\nHi" ∧
    (stream (handleDropped (2 * Second) true ⟨some HijackResult.conn⟩
        ⟨"10.0.0.1:5000", "GET", "/dropNoisy", "/dropNoisy", "HTTP/1.0", []⟩).events).sent.data.take 15
      ≠ "HTTP/1.1 200 OK".data := by
  decide

/-- C5, amended: when the hijack succeeds the bytes on the hijacked stream
begin with the protocol string of the request followed by ` 200 OK` and a
line feed; they begin with `HTTP/1.1 200 OK` when that string is `HTTP/1.1`. -/
theorem noisy_status_line_echoes_proto (after : Duration) (w : ResponseWriter) (r : Request)
    (hc : w.Hijacker = some HijackResult.conn) :
    (∃ rest, (stream (handleDropped after true w r).events).sent
        = r.Proto ++ " 200 OK\n" ++ rest) ∧
    (stream (handleDropped after true w { r with Proto := "HTTP/1.1" }).events).sent.data.take 15
      = "HTTP/1.1 200 OK".data := by
  rw [noisy_stream after w r hc, noisy_stream after w _ hc]
  exact ⟨⟨_, rfl⟩, rfl⟩

/-- C5 amended, at an HTTP/1.0 request. -/
theorem noisy_status_line_echoes_proto_witness :
    (⟨some HijackResult.conn⟩ : ResponseWriter).Hijacker = some HijackResult.conn ∧
    ∃ rest, (stream (handleDropped 7 true ⟨some HijackResult.conn⟩
        ⟨"10.0.0.1:5000", "GET", "/dropNoisy", "/dropNoisy", "HTTP/1.0", []⟩).events).sent
      = "HTTP/1.0" ++ " 200 OK\n" ++ rest :=
  ⟨rfl, (noisy_status_line_echoes_proto 7 ⟨some HijackResult.conn⟩
    ⟨"10.0.0.1:5000", "GET", "/dropNoisy", "/dropNoisy", "HTTP/1.0", []⟩ rfl).1⟩

/-- C6: when the response writer is no hijacker, or `Hijack` returns an
error, either drop variant logs one error record, hands status 500 and the
error text as body to the response writer, and returns; it does not write
to the stream, wait, log a drop or close a connection, and in the first case
it does not call `Hijack`. -/
theorem hijack_unavailable_replies_500 (after : Duration) (withResponse : Bool) (r : Request)
    (e : String) :
    handleDropped after withResponse ⟨none⟩ r
      = ⟨[Event.log ⟨Level.Error, "server doesn't support hijacking", []⟩,
          Event.headerDel "Content-Length",
          Event.headerSet "Content-Type" "text/plain; charset=utf-8",
          Event.headerSet "X-Content-Type-Options" "nosniff",
          Event.writeHeader 500,
          Event.write "server doesn't support hijacking\n"], Outcome.ret ()⟩ ∧
    handleDropped after withResponse ⟨some (HijackResult.err e)⟩ r
      = ⟨[Event.hijack (HijackResult.err e),
          Event.log ⟨Level.Error, "unable to hijack server", [("err", e)]⟩,
          Event.headerDel "Content-Length",
          Event.headerSet "Content-Type" "text/plain; charset=utf-8",
          Event.headerSet "X-Content-Type-Options" "nosniff",
          Event.writeHeader 500,
          Event.write (e ++ "\n")], Outcome.ret ()⟩ ∧
    (written (handleDropped after withResponse ⟨none⟩ r).events).status = some 500 ∧
    (written (handleDropped after withResponse ⟨none⟩ r).events).body
      = "server doesn't support hijacking" ++ "\n" ∧
    (written (handleDropped after withResponse ⟨some (HijackResult.err e)⟩ r).events).status
      = some 500 ∧
    (written (handleDropped after withResponse ⟨some (HijackResult.err e)⟩ r).events).body
      = e ++ "\n" ∧
    records (handleDropped after withResponse ⟨none⟩ r).events
      = [⟨Level.Error, "server doesn't support hijacking", []⟩] ∧
    records (handleDropped after withResponse ⟨some (HijackResult.err e)⟩ r).events
      = [⟨Level.Error, "unable to hijack server", [("err", e)]⟩] ∧
    (handleDropped after withResponse ⟨none⟩ r).events.any
      (fun x => x.onConn || x.isWait || x.isHijack) = false ∧
    (handleDropped after withResponse ⟨some (HijackResult.err e)⟩ r).events.any
      (fun x => x.onConn || x.isWait) = false ∧
    (response r (handleDropped after withResponse ⟨none⟩ r).events).status = some 500 ∧
    (response r (handleDropped after withResponse ⟨some (HijackResult.err e)⟩ r).events).status
      = some 500 := by
  refine ⟨rfl, rfl, rfl, rfl, rfl, ?_, rfl, rfl, rfl, rfl, ?_, ?_⟩
  · show ("" : String) ++ (e ++ "\n") = e ++ "\n"
    simp
  · unfold response
    split <;> rfl
  · unfold response
    split <;> rfl

/-- C7 as stated fails: to a `HEAD` request for `/hi` the server replies 200
with an empty body, not with the greeting, so the reply is not the same for
every request. -/
theorem handleHi_head_counterexample :
    response ⟨"10.0.0.1:5000", "HEAD", "/hi", "/hi", "HTTP/1.1", []⟩
        (handleHi ⟨some HijackResult.conn⟩
          ⟨"10.0.0.1:5000", "HEAD", "/hi", "/hi", "HTTP/1.1", []⟩).events
      = ⟨some 200, [], ""⟩ ∧
    (response ⟨"10.0.0.1:5000", "HEAD", "/hi", "/hi", "HTTP/1.1", []⟩
        (handleHi ⟨some HijackResult.conn⟩
          ⟨"10.0.0.1:5000", "HEAD", "/hi", "/hi", "HTTP/1.1", []⟩).events).body
      ≠ "Hi!\n" ∧
    response ⟨"10.0.0.1:5000", "HEAD", "/hi", "/hi", "HTTP/1.1", []⟩
        (handleHi ⟨some HijackResult.conn⟩
          ⟨"10.0.0.1:5000", "HEAD", "/hi", "/hi", "HTTP/1.1", []⟩).events
      ≠ response ⟨"10.0.0.1:5000", "GET", "/hi", "/hi", "HTTP/1.1", []⟩
        (handleHi ⟨some HijackResult.conn⟩
          ⟨"10.0.0.1:5000", "GET", "/hi", "/hi", "HTTP/1.1", []⟩).events := by
  decide

/-- C7, amended: for every request the plain-reply handler performs one write
of `Hi!` and a newline through the response writer, without hijacking, and
returns; the reply has status 200, and its body is that text unless the
method of the request is `HEAD`, when it is empty; what the handler writes
does not depend on the request, and the reply depends on the method alone. -/
theorem handleHi_fixed_reply (w : ResponseWriter) (r : Request) :
    handleHi w r = ⟨[Event.write "Hi!\n"], Outcome.ret ()⟩ ∧
    written (handleHi w r).events = ⟨some 200, [], "Hi!\n"⟩ ∧
    (response r (handleHi w r).events).status = some 200 ∧
    (response r (handleHi w r).events).header = [] ∧
    (response r (handleHi w r).events).body = (if r.Method = "HEAD" then "" else "Hi!\n") ∧
    (handleHi w r).events.any (fun x => x.isHijack || x.onConn) = false ∧
    (∀ (w2 : ResponseWriter) (r2 : Request), handleHi w2 r2 = handleHi w r) ∧
    (∀ (w2 : ResponseWriter) (r2 : Request),
      response { r2 with Method := r.Method } (handleHi w2 r2).events
        = response r (handleHi w r).events) := by
  refine ⟨rfl, rfl, ?_, ?_, ?_, rfl, fun _ _ => rfl, fun _ _ => rfl⟩
  · unfold response
    split <;> rfl
  · unfold response
    split <;> rfl
  · unfold response
    split <;> rfl

/-- C8: the hang handler emits one "waiting indefinitely" record with the
remote address, the method, the URL and the four tracing attributes, then
blocks: no prefix of its observations holds a write of a reply or a return. -/
theorem handleHang_never_returns (w : ResponseWriter) (r : Request) (n : Nat) :
    handleHang w r
      = ⟨[Event.log ⟨Level.Info, "waiting indefinitely",
            [("from", r.RemoteAddr), ("method", r.Method), ("url", r.URL),
             ("traceparent", r.Header.Get "traceparent"),
             ("tracestate", r.Header.Get "tracestate"),
             ("X-B3-TraceId", r.Header.Get "X-B3-TraceId"),
             ("X-B3-SpanId", r.Header.Get "X-B3-SpanId")]⟩], Outcome.blocked⟩ ∧
    ((handleHang w r).trace.take n).any (fun o => o.writesReply || o == Obs.returned) = false ∧
    (handleHang w r).trace.length = 1 := by
  refine ⟨rfl, ?_, rfl⟩
  have ht : (handleHang w r).trace
      = [Obs.effect (Event.log ⟨Level.Info, "waiting indefinitely", requestAttrs r⟩)] := rfl
  rw [ht]
  rcases n with _ | n
  · rfl
  · rw [List.take_succ_cons, List.take_nil]
    rfl

/-- C9: in either drop variant no effect that follows a successful `Hijack`
goes through the response writer; behind the logging interceptor and behind
the mux the effects on the raw connection (writes to its stream and its
close) are those of the drop handler alone. -/
theorem no_response_writer_use_after_hijack (after : Duration) (withResponse : Bool)
    (w : ResponseWriter) (r : Request) (other : Handler) :
    (afterHijack (handleDropped after withResponse w r).events).any Event.onResponseWriter
      = false ∧
    (∃ g, (withLogging (handleDropped after withResponse)).outcome = Outcome.ret g ∧
      (withLogging (handleDropped after withResponse)).events.any Event.onConn = false ∧
      (afterHijack (g w r).events).any Event.onResponseWriter = false ∧
      (g w r).events.filter Event.onConn
        = (handleDropped after withResponse w r).events.filter Event.onConn) ∧
    (∃ s, (withLogging (mux other)).outcome = Outcome.ret s ∧
      (withLogging (mux other)).events.any Event.onConn = false ∧
      (afterHijack (s w { r with Path := "/drop" }).events).any Event.onResponseWriter = false ∧
      (afterHijack (s w { r with Path := "/dropNoisy" }).events).any Event.onResponseWriter
        = false ∧
      (s w { r with Path := "/drop" }).events.filter Event.onConn
        = (handleDropped (2 * Second) false w r).events.filter Event.onConn ∧
      (s w { r with Path := "/dropNoisy" }).events.filter Event.onConn
        = (handleDropped (2 * Second) true w r).events.filter Event.onConn) := by
  obtain ⟨o⟩ := w
  rcases o with _ | hj
  · exact ⟨rfl, ⟨_, rfl, rfl, rfl, rfl⟩, ⟨_, rfl, rfl, rfl, rfl, rfl, rfl⟩⟩
  · cases hj with
    | conn =>
      cases withResponse
      · exact ⟨rfl, ⟨_, rfl, rfl, rfl, rfl⟩, ⟨_, rfl, rfl, rfl, rfl, rfl, rfl⟩⟩
      · exact ⟨rfl, ⟨_, rfl, rfl, rfl, rfl⟩, ⟨_, rfl, rfl, rfl, rfl, rfl, rfl⟩⟩
    | err text => exact ⟨rfl, ⟨_, rfl, rfl, rfl, rfl⟩, ⟨_, rfl, rfl, rfl, rfl, rfl, rfl⟩⟩

/-- C10: when the hijack succeeds a drop variant performs, in this order:
the hijack; with a response only, the three writes and one flush; the wait
of `after`; one informational "dropping connection" record; the close.  It
then returns, so the close is its last effect and the only close, and the
two variants differ by the writes and the flush alone. -/
theorem drop_effect_order (after : Duration) (withResponse : Bool) (w : ResponseWriter)
    (r : Request) (hc : w.Hijacker = some HijackResult.conn) :
    (handleDropped after withResponse w r).events
      = Event.hijack HijackResult.conn ::
        ((if withResponse then
            [Event.bufWriteString (r.Proto ++ " 200 OK\n"),
             Event.bufWriteString "Content-Length: 3\n\n",
             Event.bufWriteString "Hi", Event.bufFlush]
          else []) ++
         [Event.wait after,
          Event.log ⟨Level.Info, "dropping connection",
            [("from", r.RemoteAddr), ("method", r.Method), ("url", r.URL),
             ("traceparent", r.Header.Get "traceparent"),
             ("tracestate", r.Header.Get "tracestate"),
             ("X-B3-TraceId", r.Header.Get "X-B3-TraceId"),
             ("X-B3-SpanId", r.Header.Get "X-B3-SpanId")]⟩,
          Event.connClose]) ∧
    (handleDropped after withResponse w r).outcome = Outcome.ret () ∧
    ((handleDropped after withResponse w r).events.filter Event.isClose).length = 1 ∧
    (stream (handleDropped after withResponse w r).events).closes = 1 ∧
    (handleDropped after withResponse w r).events.getLast? = some Event.connClose ∧
    (handleDropped after withResponse w r).trace.getLast? = some Obs.returned ∧
    (handleDropped after true w r).events.filter (fun x => !x.onStream)
      = (handleDropped after false w r).events ∧
    (handleDropped after false w r).events.filter Event.onStream = [] ∧
    (handleDropped after true w r).events.filter Event.onStream
      = [Event.bufWriteString (r.Proto ++ " 200 OK\n"),
         Event.bufWriteString "Content-Length: 3\n\n",
         Event.bufWriteString "Hi", Event.bufFlush] := by
  rw [handleDropped_conn after withResponse w r hc, handleDropped_conn after true w r hc,
    handleDropped_conn after false w r hc]
  cases withResponse
  · exact ⟨rfl, rfl, rfl, rfl, rfl, rfl, rfl, rfl, rfl⟩
  · exact ⟨rfl, rfl, rfl, rfl, rfl, rfl, rfl, rfl, rfl⟩

/-- C10, at a request for `/dropNoisy`. -/
theorem drop_effect_order_witness :
    (⟨some HijackResult.conn⟩ : ResponseWriter).Hijacker = some HijackResult.conn ∧
    (handleDropped 7 true ⟨some HijackResult.conn⟩
        ⟨"10.0.0.1:5000", "GET", "/dropNoisy", "/dropNoisy", "HTTP/1.1", []⟩).events.getLast?
      = some Event.connClose ∧
    ((handleDropped 7 true ⟨some HijackResult.conn⟩
        ⟨"10.0.0.1:5000", "GET", "/dropNoisy", "/dropNoisy", "HTTP/1.1", []⟩).events.filter
          Event.isClose).length = 1 :=
  ⟨rfl, (drop_effect_order 7 true ⟨some HijackResult.conn⟩
      ⟨"10.0.0.1:5000", "GET", "/dropNoisy", "/dropNoisy", "HTTP/1.1", []⟩ rfl).2.2.2.2.1,
    (drop_effect_order 7 true ⟨some HijackResult.conn⟩
      ⟨"10.0.0.1:5000", "GET", "/dropNoisy", "/dropNoisy", "HTTP/1.1", []⟩ rfl).2.2.1⟩

end DropCon
